import Mathlib

/-!
Verification of the personal-assistant repository: a shallow embedding of
the planner scheduling routine, the fixture filters and lookups, the
coordinator dispatch tools and their parsing fallback chain, the
tool-call/tool-result transcript assembly, and the session item counter,
together with theorems settling the specification claims about them.

Conventions of the embedding:
  * Python dictionaries coming from JSON fixtures are structures whose
    possibly-missing keys are `Option` fields; `dict.get(k, d)` becomes
    `field.getD d`.
  * Python exceptions are `Except String` values; an uncaught library
    call made by the embedded code (the model API, the agents SDK, the
    JSON codec, the regex engine, the database driver) is a function
    parameter, so every theorem quantifies over its behaviour.
  * Python truthiness of optional strings / ints is modelled explicitly
    (`None` and `""` are falsy; `0` is falsy).
  * `str.lower()` is `String.toLower` (the data is ASCII).
-/

namespace Assistant

/-- Python `s.lower()` on the ASCII data of the repository, written over
the character list so that the kernel can evaluate it (it agrees with
`String.toLower`). -/
def pyLower (s : String) : String :=
  ⟨s.data.map Char.toLower⟩

/-! ## Time parsing and formatting (planner.py `_optimize_schedule`) -/

/-- Python string split on the colon character, over the character
list: always returns at least one (possibly empty) part, one more part
per separator. -/
def splitOnColon : List Char → List (List Char)
  | [] => [[]]
  | c :: rest =>
    match splitOnColon rest with
    | h :: t => if c = ':' then [] :: h :: t else (c :: h) :: t
    | [] => [[]]

/-- Digits-only payload of Python `int(s)`: a nonempty run of decimal
digits parsed to a natural number, `none` otherwise. -/
def parsePyDigits (cs : List Char) : Option Nat :=
  if cs = [] then none
  else if cs.all Char.isDigit then
    some (cs.foldl (fun n c => n * 10 + (c.toNat - 48)) 0)
  else none

/-- Python `int(s)` restricted to the shapes the repository feeds it:
surrounding whitespace is stripped, an optional sign precedes a nonempty
digit run; anything else raises `ValueError`, modelled as `none`. -/
def parsePyInt (s : String) : Option Int :=
  let cs := (s.data.dropWhile Char.isWhitespace).reverse.dropWhile Char.isWhitespace |>.reverse
  match cs with
  | '-' :: rest => (parsePyDigits rest).map (fun n => -(n : Int))
  | '+' :: rest => (parsePyDigits rest).map (fun n => (n : Int))
  | _ => (parsePyDigits cs).map (fun n => (n : Int))

/-- `h, m = map(int, s.split(":"))` followed by `h * 60 + m`: the
minutes-since-midnight value of an `HH:MM` string, `none` when the split
does not yield exactly two int-parsable parts. -/
def parseHHMM (s : String) : Option Int :=
  match (splitOnColon s.data).map (fun part => parsePyInt ⟨part⟩) with
  | [some h, some m] => some (h * 60 + m)
  | _ => none

/-- Python `f"{n:02d}"`: decimal rendering left-padded with `0` to width
two (a sign counts toward the width, as in Python). -/
def format02d (n : Int) : String :=
  let s := toString n
  if s.length < 2 then "0" ++ s else s

/-- `divmod(t, 60)` then `f"{h:02d}:{m:02d}"` (Python floor division,
which for the positive divisor 60 is Euclidean division). -/
def formatHHMM (t : Int) : String :=
  format02d (t.ediv 60) ++ ":" ++ format02d (t.emod 60)

/-! ## Travel-time lookup (utils.py `get_travel_time`) -/

/-- One entry of the `travel_times` array of locations.json; the
`driving_minutes` key may be absent from a fixture record.  The
`driving_distance_miles`/`note` keys are never read by the callers under
verification and are omitted. -/
structure TravelEntry where
  origin : String
  destination : String
  driving_minutes : Option Int
deriving DecidableEq, Repr

/-- utils.get_travel_time: first fixture entry whose origin and
destination both match case-insensitively; on a miss, the constructed
default-estimate record, whose `driving_minutes` is 30. -/
def get_travel_time (travel_times : List TravelEntry) (origin destination : String) :
    TravelEntry :=
  match travel_times.find? (fun e =>
      pyLower e.origin == pyLower origin && pyLower e.destination == pyLower destination) with
  | some e => e
  | none => { origin := origin, destination := destination, driving_minutes := some 30 }

/-! ## Planner schedule optimization (planner.py `_optimize_schedule`) -/

/-- One element of the `activities` argument: a model-supplied dict whose
keys may all be absent (`.get` defaults: name `"Unknown Activity"`,
location `""`, duration 60). -/
structure ActivityInput where
  name : Option String
  location : Option String
  duration_minutes : Option Int
deriving DecidableEq, Repr

/-- One entry appended to `optimized_schedule`. -/
structure ScheduleEntry where
  activity_name : String
  location : String
  start_time : String
  end_time : String
  travel_time_minutes : Int
deriving DecidableEq, Repr

/-- Return value of `_optimize_schedule`: either one of the two
`{"error": ...}` dicts or the `{"optimized_schedule": [...]}` dict. -/
inductive OptimizeResult where
  | error (msg : String)
  | schedule (entries : List ScheduleEntry)
deriving DecidableEq, Repr

/-- The `for activity in activities` loop of `_optimize_schedule`,
parameterized by the travel lookup (`get_travel_time` in the source) and
the parsed end bound (`end_time_minutes`, `none` when no end time was
supplied).  The bound check is `if end_time_minutes and activity_end_time
> end_time_minutes: break`, so a bound of 0 is falsy and never fires. -/
def scheduleWalk (tf : String → String → TravelEntry) (endBound : Option Int) :
    List ActivityInput → Int → String → List ScheduleEntry
  | [], _, _ => []
  | activity :: rest, current_time, last_location =>
    let loc := activity.location.getD ""
    let travel_time := (tf last_location loc).driving_minutes.getD 15
    let activity_start_time := current_time + travel_time
    let activity_end_time := activity_start_time + activity.duration_minutes.getD 60
    let exceeds := match endBound with
      | some b => b != 0 && decide (activity_end_time > b)
      | none => false
    if exceeds then []
    else
      { activity_name := activity.name.getD "Unknown Activity",
        location := loc,
        start_time := formatHHMM activity_start_time,
        end_time := formatHHMM activity_end_time,
        travel_time_minutes := travel_time } ::
      scheduleWalk tf endBound rest activity_end_time loc

/-- Observer for the walk used only in theorem statements: the sequence
of numeric activity end times (`activity_end_time`) an unbounded walk
computes, one per input activity. -/
def walkEnds (tf : String → String → TravelEntry) :
    List ActivityInput → Int → String → List Int
  | [], _, _ => []
  | activity :: rest, current_time, last_location =>
    let loc := activity.location.getD ""
    let travel_time := (tf last_location loc).driving_minutes.getD 15
    let activity_end_time := current_time + travel_time + activity.duration_minutes.getD 60
    activity_end_time :: walkEnds tf rest activity_end_time loc

/-- planner.PlannerAgent._optimize_schedule, parameterized by the travel
lookup.  Start and end times are parsed as in the source (`if end_time:`
is Python truthiness, so an empty end string means no bound); the walk
starts at the parsed start time from `"Home (Sunnyvale)"`. -/
def optimize_schedule (tf : String → String → TravelEntry)
    (activities : List ActivityInput) (start_time : String)
    (end_time : Option String) : OptimizeResult :=
  match parseHHMM start_time with
  | none => .error "Invalid start time format. Please use HH:MM format."
  | some current_time =>
    match end_time with
    | some s =>
      if s = "" then
        .schedule (scheduleWalk tf none activities current_time "Home (Sunnyvale)")
      else
        match parseHHMM s with
        | none => .error "Invalid end time format. Please use HH:MM format."
        | some b =>
          .schedule (scheduleWalk tf (some b) activities current_time "Home (Sunnyvale)")
    | none => .schedule (scheduleWalk tf none activities current_time "Home (Sunnyvale)")

/-- The travel lookup the planner actually composes with: fixture-backed
`get_travel_time`. -/
def optimize_schedule_fixtures (travel_times : List TravelEntry)
    (activities : List ActivityInput) (start_time : String)
    (end_time : Option String) : OptimizeResult :=
  optimize_schedule (get_travel_time travel_times) activities start_time end_time

/-- Claim C1: with activities A (location X, 60 min) and B (location Y,
30 min), start 09:00, no end time, and a travel lookup answering 15
minutes for every pair, the schedule is exactly A 09:15-10:15 then
B 10:30-11:00, with 15 minutes of travel inserted before each leg and
times rendered as zero-padded HH:MM. -/
theorem optimize_schedule_two_activity_example :
    optimize_schedule (fun o d => { origin := o, destination := d, driving_minutes := some 15 })
      [{ name := some "A", location := some "X", duration_minutes := some 60 },
       { name := some "B", location := some "Y", duration_minutes := some 30 }]
      "09:00" none =
    .schedule
      [{ activity_name := "A", location := "X", start_time := "09:15",
         end_time := "10:15", travel_time_minutes := 15 },
       { activity_name := "B", location := "Y", start_time := "10:30",
         end_time := "11:00", travel_time_minutes := 15 }] := by
  rfl

/-- The walk ignores a parsed end bound of zero: the Python check
`if end_time_minutes and ...` is false when `end_time_minutes == 0`. -/
theorem scheduleWalk_zero_bound (tf : String → String → TravelEntry) :
    ∀ (acts : List ActivityInput) (t : Int) (loc : String),
      scheduleWalk tf (some 0) acts t loc = scheduleWalk tf none acts t loc
  | [], _, _ => rfl
  | a :: rest, t, loc => by
    simp only [scheduleWalk, bne_self_eq_false, Bool.false_and, Bool.false_eq_true,
      if_false, List.cons.injEq, true_and]
    exact scheduleWalk_zero_bound tf rest _ _

/-- With a nonzero parsed end bound `b`, the bounded walk is the prefix
of the unbounded walk up to (and excluding) the first activity whose
computed end time exceeds `b`. -/
theorem scheduleWalk_take (tf : String → String → TravelEntry) {b : Int} (hb : b ≠ 0) :
    ∀ (acts : List ActivityInput) (t : Int) (loc : String),
      scheduleWalk tf (some b) acts t loc =
        (scheduleWalk tf none acts t loc).take
          ((walkEnds tf acts t loc).takeWhile (fun e => decide (e ≤ b))).length
  | [], _, _ => rfl
  | a :: rest, t, loc => by
    by_cases h : t + (tf loc (a.location.getD "")).driving_minutes.getD 15 +
        a.duration_minutes.getD 60 ≤ b
    · have hgt : ¬(b < t + (tf loc (a.location.getD "")).driving_minutes.getD 15 +
          a.duration_minutes.getD 60) := not_lt.mpr h
      simp only [scheduleWalk, walkEnds]
      simp only [h, hgt, decide_eq_true_eq, List.takeWhile_cons, if_true, decide_True,
        decide_False, Bool.and_false, Bool.false_eq_true, if_false, List.length_cons,
        List.take_succ_cons, List.cons.injEq, true_and]
      exact scheduleWalk_take tf hb rest _ _
    · have hlt : b < t + (tf loc (a.location.getD "")).driving_minutes.getD 15 +
          a.duration_minutes.getD 60 := lt_of_not_ge h
      simp only [scheduleWalk, walkEnds]
      simp [h, hlt, hb, List.takeWhile_cons]

/-- Claim C9: supplying `end_time = "00:00"` (which parses to 0 minutes
past midnight) applies no bound at all -- the result equals the run with
no end time, because the truncation check treats a zero end-time value
as absent. -/
theorem optimize_schedule_midnight_end_no_bound
    (tf : String → String → TravelEntry) (activities : List ActivityInput)
    (start_time : String) :
    optimize_schedule tf activities start_time (some "00:00") =
      optimize_schedule tf activities start_time none := by
  unfold optimize_schedule
  cases hs : parseHHMM start_time with
  | none => rfl
  | some t =>
    have h0 : parseHHMM "00:00" = some 0 := rfl
    have hne : ("00:00" = "") = False := by simp
    simp only [h0, hne, if_false]
    exact congrArg _ (scheduleWalk_zero_bound tf activities t _)

/-- Claim C2 counterexample: `end_time = "00:00"` is accepted (it parses
to the bound 0), the computed end time of activity A, 615 (10:15), exceeds that
bound, yet A is not omitted from the returned schedule -- refuting the
claim as stated for this input. -/
theorem optimize_schedule_zero_bound_not_truncated :
    parseHHMM "00:00" = some 0 ∧
    (615 : Int) > 0 ∧
    optimize_schedule (fun o d => { origin := o, destination := d, driving_minutes := some 15 })
      [{ name := some "A", location := some "X", duration_minutes := some 60 }]
      "09:00" (some "00:00") =
      .schedule [{ activity_name := "A", location := "X", start_time := "09:15",
                   end_time := "10:15", travel_time_minutes := 15 }] ∧
    [({ activity_name := "A", location := "X", start_time := "09:15",
        end_time := "10:15", travel_time_minutes := 15 } : ScheduleEntry)] ≠ [] :=
  ⟨rfl, by decide, rfl, by decide⟩

/-- Claim C2 (amended): for every travel lookup, activity list, start
time, and supplied end time that parses to a NONZERO minute value, the
bounded run returns exactly a prefix (in input order, no reordering or
backtracking) of the unbounded run: the prefix up to the first activity
whose computed end time (travel plus duration added to the running
clock) exceeds the bound; that activity and all later ones are omitted.
(An end time parsing to zero imposes no bound at all.) -/
theorem optimize_schedule_truncation
    (tf : String → String → TravelEntry) (activities : List ActivityInput)
    (start_time end_time : String) (t b : Int)
    (hs : parseHHMM start_time = some t) (he : parseHHMM end_time = some b)
    (hb : b ≠ 0) :
    ∃ full, optimize_schedule tf activities start_time none = .schedule full ∧
      optimize_schedule tf activities start_time (some end_time) =
        .schedule (full.take
          (((walkEnds tf activities t "Home (Sunnyvale)").takeWhile
              (fun e => decide (e ≤ b))).length)) := by
  have hne : end_time ≠ "" := by
    intro h
    rw [h] at he
    exact Option.noConfusion he
  refine ⟨scheduleWalk tf none activities t "Home (Sunnyvale)", ?_, ?_⟩
  · unfold optimize_schedule
    rw [hs]
  · unfold optimize_schedule
    rw [hs]
    simp only [if_neg hne, he]
    exact congrArg _ (scheduleWalk_take tf hb activities t _)

/-- Witness for the amended C2 theorem: start 09:00, end 10:00 (600),
activities A (60 min) and B (30 min) with a 15-minute lookup; A ends at
615 > 600 so the bounded schedule is the empty prefix. -/
theorem optimize_schedule_truncation_witness :
    ∃ full, optimize_schedule
        (fun o d => { origin := o, destination := d, driving_minutes := some 15 })
        [{ name := some "A", location := some "X", duration_minutes := some 60 },
         { name := some "B", location := some "Y", duration_minutes := some 30 }]
        "09:00" none = .schedule full ∧
      optimize_schedule
        (fun o d => { origin := o, destination := d, driving_minutes := some 15 })
        [{ name := some "A", location := some "X", duration_minutes := some 60 },
         { name := some "B", location := some "Y", duration_minutes := some 30 }]
        "09:00" (some "10:00") =
        .schedule (full.take
          (((walkEnds (fun o d => { origin := o, destination := d, driving_minutes := some 15 })
              [{ name := some "A", location := some "X", duration_minutes := some 60 },
               { name := some "B", location := some "Y", duration_minutes := some 30 }]
              540 "Home (Sunnyvale)").takeWhile (fun e => decide (e ≤ 600))).length)) :=
  optimize_schedule_truncation
    (fun o d => { origin := o, destination := d, driving_minutes := some 15 })
    [{ name := some "A", location := some "X", duration_minutes := some 60 },
     { name := some "B", location := some "Y", duration_minutes := some 30 }]
    "09:00" "10:00" 540 600 rfl rfl (by decide)

/-- Claim C5 counterexample: with an empty travel-time fixture list (so
the pair Home (Sunnyvale) to X has no entry), the planner schedules A
with a 30-minute leg (start 09:30), not the 15 minutes the claim
states. -/
theorem travel_lookup_miss_uses_thirty :
    optimize_schedule_fixtures []
      [{ name := some "A", location := some "X", duration_minutes := some 60 }]
      "09:00" none =
      .schedule [{ activity_name := "A", location := "X", start_time := "09:30",
                   end_time := "10:30", travel_time_minutes := 30 }] ∧
    (30 : Int) ≠ 15 :=
  ⟨rfl, by decide⟩

/-- Claim C5 (amended): for every origin/destination pair with no
case-insensitive entry in the travel-time fixtures, utils.get_travel_time
returns the constructed default-estimate record whose driving_minutes is
30, so the travel time the planner uses for that leg
(`travel_info.get("driving_minutes", 15)`) is 30 minutes; the 15-minute
fallback of the planner applies only when a matched fixture entry lacks
the driving_minutes key. -/
theorem travel_lookup_miss_default (travel_times : List TravelEntry) (o d : String)
    (h : ∀ e ∈ travel_times,
      ¬(pyLower e.origin = pyLower o ∧ pyLower e.destination = pyLower d)) :
    get_travel_time travel_times o d =
      { origin := o, destination := d, driving_minutes := some 30 } ∧
    (get_travel_time travel_times o d).driving_minutes.getD 15 = 30 := by
  have hf : travel_times.find? (fun e =>
      pyLower e.origin == pyLower o && pyLower e.destination == pyLower d) = none := by
    rw [List.find?_eq_none]
    intro e he
    simpa using h e he
  unfold get_travel_time
  rw [hf]
  exact ⟨rfl, rfl⟩

/-- Witness for the amended C5 theorem at the empty fixture list. -/
theorem travel_lookup_miss_default_witness :
    get_travel_time [] "Home (Sunnyvale)" "X" =
      { origin := "Home (Sunnyvale)", destination := "X", driving_minutes := some 30 } ∧
    (get_travel_time [] "Home (Sunnyvale)" "X").driving_minutes.getD 15 = 30 :=
  travel_lookup_miss_default [] "Home (Sunnyvale)" "X" (by simp)

/-! ## Name-based details lookups (activity.py `_get_activity_details`,
culinary.py `_get_recipe_details`, foodie.py `_get_restaurant_details`) -/

/-- A fixture record as seen by the name-based details lookups: its name
plus the rest of the record, which the lookup returns untouched. -/
structure DetailRec where
  name : String
  info : String
deriving DecidableEq, Repr

/-- Result of a details lookup: the matched record, or the
`{"error": ...}` payload. -/
inductive DetailsResult where
  | found (r : DetailRec)
  | notFound (msg : String)
deriving DecidableEq, Repr

/-- The single-quote character (ASCII 39) appearing in the not-found
messages. -/
def sq : String := String.singleton (Char.ofNat 39)

/-- Shared body of the three `_get_*_details` methods: the first record
whose lowercased name equals the lowercased query; otherwise the payload
whose error text quotes the query between single quotes. -/
def lookup_by_name (entity : String) (records : List DetailRec) (query : String) :
    DetailsResult :=
  match records.find? (fun r => pyLower r.name == pyLower query) with
  | some r => .found r
  | none => .notFound (entity ++ " " ++ sq ++ query ++ sq ++ " not found")

/-- activity.ActivityAgent._get_activity_details over its fixture list. -/
def get_activity_details (activities : List DetailRec) (activity_name : String) :
    DetailsResult :=
  lookup_by_name "Activity" activities activity_name

/-- culinary.CulinaryAgent._get_recipe_details over its fixture list. -/
def get_recipe_details (recipes : List DetailRec) (recipe_name : String) :
    DetailsResult :=
  lookup_by_name "Recipe" recipes recipe_name

/-- foodie.FoodieAgent._get_restaurant_details over its fixture list. -/
def get_restaurant_details (restaurants : List DetailRec) (restaurant_name : String) :
    DetailsResult :=
  lookup_by_name "Restaurant" restaurants restaurant_name

/-- Claim C7: a record matches iff its full name equals the full query
case-insensitively (so a proper substring of a valid name never
matches); with no match the result is the
`{"error": "<Entity> <quote><name><quote> not found"}` payload, never an
exception; and the three concrete lookups are instances of this body
with their entity labels. -/
theorem details_lookup_exact_case_insensitive (entity : String)
    (records : List DetailRec) (query : String) :
    (∀ r, lookup_by_name entity records query = .found r →
      r ∈ records ∧ pyLower r.name = pyLower query) ∧
    ((∃ r ∈ records, pyLower r.name = pyLower query) →
      ∃ r, lookup_by_name entity records query = .found r) ∧
    ((∀ r ∈ records, pyLower r.name ≠ pyLower query) →
      lookup_by_name entity records query =
        .notFound (entity ++ " " ++ sq ++ query ++ sq ++ " not found")) ∧
    get_activity_details records query = lookup_by_name "Activity" records query ∧
    get_recipe_details records query = lookup_by_name "Recipe" records query ∧
    get_restaurant_details records query = lookup_by_name "Restaurant" records query := by
  refine ⟨?_, ?_, ?_, rfl, rfl, rfl⟩
  · intro r hr
    unfold lookup_by_name at hr
    cases hf : records.find? (fun r => pyLower r.name == pyLower query) with
    | none => rw [hf] at hr; exact DetailsResult.noConfusion hr
    | some r0 =>
      rw [hf] at hr
      cases hr
      have hmem := List.mem_of_find?_eq_some hf
      have hp := List.find?_some hf
      simp only [beq_iff_eq] at hp
      exact ⟨hmem, hp⟩
  · rintro ⟨r, hmem, hname⟩
    unfold lookup_by_name
    cases hf : records.find? (fun r => pyLower r.name == pyLower query) with
    | none =>
      rw [List.find?_eq_none] at hf
      exact absurd (by simpa using hname) (by simpa using hf r hmem)
    | some r0 => exact ⟨r0, rfl⟩
  · intro hall
    unfold lookup_by_name
    have hf : records.find? (fun r => pyLower r.name == pyLower query) = none := by
      rw [List.find?_eq_none]
      intro r hr
      simpa using hall r hr
    rw [hf]

/-- Witness for the C7 theorem: a case-insensitive full-name match is
found, and the proper substring "Golf" of "Golfland" does not match. -/
theorem details_lookup_exact_case_insensitive_witness :
    (∃ r, lookup_by_name "Activity" [{ name := "Golfland", info := "arcade" }] "gOLFLAND" =
      .found r) ∧
    lookup_by_name "Activity" [{ name := "Golfland", info := "arcade" }] "Golf" =
      .notFound ("Activity " ++ sq ++ "Golf" ++ sq ++ " not found") := by
  constructor
  · exact (details_lookup_exact_case_insensitive "Activity"
      [{ name := "Golfland", info := "arcade" }] "gOLFLAND").2.1
      ⟨{ name := "Golfland", info := "arcade" }, by simp, by decide⟩
  · exact (details_lookup_exact_case_insensitive "Activity"
      [{ name := "Golfland", info := "arcade" }] "Golf").2.2.1 (by decide)

/-! ## Fixture filters (utils.py `get_activities`, `get_recipes`,
`get_restaurants`) -/

/-- Python `needle in hay` for strings, over character lists. -/
def pyContainsAux (needle : List Char) : List Char → Bool
  | [] => needle.isPrefixOf ([] : List Char)
  | c :: rest => needle.isPrefixOf (c :: rest) || pyContainsAux needle rest

/-- Python `needle in hay` on strings. -/
def pyContains (hay needle : String) : Bool :=
  pyContainsAux needle.data hay.data

/-- One record of activities.json as read by get_activities; every key
the filter touches may be absent. -/
structure ActivityRec where
  age_min : Option Int
  age_max : Option Int
  indoor : Option Bool
  location : Option String
deriving DecidableEq, Repr

/-- The `**filters` kwargs of get_activities; `some` models key
presence. -/
structure ActivityFilters where
  age_min : Option Int := none
  age_max : Option Int := none
  indoor : Option Bool := none
  location : Option String := none
deriving DecidableEq, Repr

/-- Python truthiness of the filters dict: empty means falsy. -/
def ActivityFilters.isEmpty (f : ActivityFilters) : Bool :=
  f.age_min.isNone && f.age_max.isNone && f.indoor.isNone && f.location.isNone

/-- `if "age_min" in filters and activity.get("age_min", 0) >
filters["age_min"]: match = False`. -/
def ageMinOk (v : Int) (a : ActivityRec) : Bool :=
  if a.age_min.getD 0 > v then false else true

/-- `if "age_max" in filters and activity.get("age_max", 99) <
filters["age_max"]: match = False`. -/
def ageMaxOk (v : Int) (a : ActivityRec) : Bool :=
  if a.age_max.getD 99 < v then false else true

/-- `if "indoor" in filters and activity.get("indoor") !=
filters["indoor"]: match = False` (a record with no indoor key compares
unequal to any boolean, as `None` does in Python). -/
def indoorOk (v : Bool) (a : ActivityRec) : Bool :=
  if a.indoor ≠ some v then false else true

/-- `if "location" in filters and filters["location"].lower() not in
activity.get("location", "").lower(): match = False`. -/
def locationOk (v : String) (a : ActivityRec) : Bool :=
  if !pyContains (pyLower (a.location.getD "")) (pyLower v) then false else true

/-- Net value of the `match` flag after the four sequential checks of
the get_activities loop body. -/
def activityMatches (f : ActivityFilters) (a : ActivityRec) : Bool :=
  (match f.age_min with | none => true | some v => ageMinOk v a) &&
  (match f.age_max with | none => true | some v => ageMaxOk v a) &&
  (match f.indoor with | none => true | some v => indoorOk v a) &&
  (match f.location with | none => true | some v => locationOk v a)

/-- utils.get_activities: the unfiltered fixture list when the filters
dict is empty (falsy), else the records whose `match` flag survives. -/
def get_activities (activities : List ActivityRec) (filters : ActivityFilters) :
    List ActivityRec :=
  if filters.isEmpty then activities
  else activities.filter (fun a => activityMatches filters a)

/-- One record of recipes.json as read by get_recipes. -/
structure RecipeRec where
  cuisine : Option String
  meal_type : Option String
  prep_time : Option Int
deriving DecidableEq, Repr

/-- The `**filters` kwargs of get_recipes. -/
structure RecipeFilters where
  cuisine : Option String := none
  meal_type : Option String := none
  max_prep_time : Option Int := none
deriving DecidableEq, Repr

/-- Python truthiness of the recipe filters dict. -/
def RecipeFilters.isEmpty (f : RecipeFilters) : Bool :=
  f.cuisine.isNone && f.meal_type.isNone && f.max_prep_time.isNone

/-- `filters["cuisine"].lower() not in recipe.get("cuisine", "").lower()`. -/
def recipeCuisineOk (v : String) (r : RecipeRec) : Bool :=
  if !pyContains (pyLower (r.cuisine.getD "")) (pyLower v) then false else true

/-- `filters["meal_type"].lower() not in recipe.get("meal_type", "").lower()`. -/
def mealTypeOk (v : String) (r : RecipeRec) : Bool :=
  if !pyContains (pyLower (r.meal_type.getD "")) (pyLower v) then false else true

/-- `recipe.get("prep_time", 0) > filters["max_prep_time"]`. -/
def maxPrepOk (v : Int) (r : RecipeRec) : Bool :=
  if r.prep_time.getD 0 > v then false else true

/-- Net value of the `match` flag of the get_recipes loop body. -/
def recipeMatches (f : RecipeFilters) (r : RecipeRec) : Bool :=
  (match f.cuisine with | none => true | some v => recipeCuisineOk v r) &&
  (match f.meal_type with | none => true | some v => mealTypeOk v r) &&
  (match f.max_prep_time with | none => true | some v => maxPrepOk v r)

/-- utils.get_recipes. -/
def get_recipes (recipes : List RecipeRec) (filters : RecipeFilters) :
    List RecipeRec :=
  if filters.isEmpty then recipes
  else recipes.filter (fun r => recipeMatches filters r)

/-- One record of restaurants.json as read by get_restaurants. -/
structure RestaurantRec where
  cuisine : Option String
  location : Option String
  price_range : Option String
deriving DecidableEq, Repr

/-- The `**filters` kwargs of get_restaurants. -/
structure RestaurantFilters where
  cuisine : Option String := none
  location : Option String := none
  price_range : Option Int := none
deriving DecidableEq, Repr

/-- Python truthiness of the restaurant filters dict. -/
def RestaurantFilters.isEmpty (f : RestaurantFilters) : Bool :=
  f.cuisine.isNone && f.location.isNone && f.price_range.isNone

/-- `filters["cuisine"].lower() not in restaurant.get("cuisine", "").lower()`. -/
def restCuisineOk (v : String) (r : RestaurantRec) : Bool :=
  if !pyContains (pyLower (r.cuisine.getD "")) (pyLower v) then false else true

/-- `filters["location"].lower() not in restaurant.get("location", "").lower()`. -/
def restLocationOk (v : String) (r : RestaurantRec) : Bool :=
  if !pyContains (pyLower (r.location.getD "")) (pyLower v) then false else true

/-- `len(restaurant.get("price_range", "$")) > filters["price_range"]`. -/
def priceRangeOk (v : Int) (r : RestaurantRec) : Bool :=
  if ((r.price_range.getD "$").length : Int) > v then false else true

/-- Net value of the `match` flag of the get_restaurants loop body. -/
def restaurantMatches (f : RestaurantFilters) (r : RestaurantRec) : Bool :=
  (match f.cuisine with | none => true | some v => restCuisineOk v r) &&
  (match f.location with | none => true | some v => restLocationOk v r) &&
  (match f.price_range with | none => true | some v => priceRangeOk v r)

/-- utils.get_restaurants. -/
def get_restaurants (restaurants : List RestaurantRec) (filters : RestaurantFilters) :
    List RestaurantRec :=
  if filters.isEmpty then restaurants
  else restaurants.filter (fun r => restaurantMatches filters r)

/-- Apply a single optional filter dimension: `none` is the identity,
`some v` keeps the records passing that one check. -/
def filterBy {α β : Type} (f : Option β) (ok : β → α → Bool) (l : List α) : List α :=
  match f with
  | none => l
  | some v => l.filter (ok v)

/-- Claim C8: each fixture filter decomposes into a chain of independent
single-parameter filters in which an absent parameter is the identity on
its dimension; with no parameters at all, the full fixture list is
returned unchanged. -/
theorem filters_absent_param_noop (activities : List ActivityRec)
    (recipes : List RecipeRec) (restaurants : List RestaurantRec)
    (fa : ActivityFilters) (fr : RecipeFilters) (fs : RestaurantFilters) :
    get_activities activities fa =
      filterBy fa.location locationOk (filterBy fa.indoor indoorOk
        (filterBy fa.age_max ageMaxOk (filterBy fa.age_min ageMinOk activities))) ∧
    get_activities activities {} = activities ∧
    get_recipes recipes fr =
      filterBy fr.max_prep_time maxPrepOk (filterBy fr.meal_type mealTypeOk
        (filterBy fr.cuisine recipeCuisineOk recipes)) ∧
    get_recipes recipes {} = recipes ∧
    get_restaurants restaurants fs =
      filterBy fs.price_range priceRangeOk (filterBy fs.location restLocationOk
        (filterBy fs.cuisine restCuisineOk restaurants)) ∧
    get_restaurants restaurants {} = restaurants := by
  refine ⟨?_, rfl, ?_, rfl, ?_, rfl⟩
  · obtain ⟨f1, f2, f3, f4⟩ := fa
    cases f1 <;> cases f2 <;> cases f3 <;> cases f4 <;>
      simp [get_activities, activityMatches, ActivityFilters.isEmpty, filterBy,
        List.filter_filter, Bool.and_comm, Bool.and_assoc, Bool.and_left_comm]
  · obtain ⟨f1, f2, f3⟩ := fr
    cases f1 <;> cases f2 <;> cases f3 <;>
      simp [get_recipes, recipeMatches, RecipeFilters.isEmpty, filterBy,
        List.filter_filter, Bool.and_comm, Bool.and_assoc, Bool.and_left_comm]
  · obtain ⟨f1, f2, f3⟩ := fs
    cases f1 <;> cases f2 <;> cases f3 <;>
      simp [get_restaurants, restaurantMatches, RestaurantFilters.isEmpty, filterBy,
        List.filter_filter, Bool.and_comm, Bool.and_assoc, Bool.and_left_comm]

/-! ## Tool-call execution and transcript assembly
(assistant_agents/__init__.py `BaseAgent.execute_tool_calls` and the
tool-message loop of activity.py / planner.py / foodie.py `process`) -/

/-- One tool call of a model response (`tc.id`, `tc.function.name`,
`tc.function.arguments`). -/
structure PyToolCall where
  id : String
  fname : String
  arguments : String
deriving DecidableEq, Repr

/-- A registered FunctionTool: its name and its execution on the raw
arguments string. -/
structure PyTool where
  name : String
  run : String → String

/-- The pydantic `ToolResult(name=..., result=...)`; pydantic models
compare by field values. -/
structure ToolResult where
  name : String
  result : String
deriving DecidableEq, BEq, Repr

/-- BaseAgent.execute_tool_calls: for each call, the first registered
tool with the requested name is executed; a call whose name matches no
tool contributes nothing. -/
def execute_tool_calls (tools : List PyTool) : List PyToolCall → List ToolResult
  | [] => []
  | tc :: rest =>
    match tools.find? (fun t => t.name == tc.fname) with
    | some tool =>
      { name := tc.fname, result := tool.run tc.arguments } ::
        execute_tool_calls tools rest
    | none => execute_tool_calls tools rest

/-- One tool-role conversation item appended to the transcript. -/
structure ToolMessage where
  tool_call_id : String
  content : String
deriving DecidableEq, Repr

/-- The `for result in tool_results:` append loop of the agent
process methods: the id of each message is
`message.tool_calls[tool_results.index(result)].id`, where
`list.index` finds the FIRST element equal to `result`.  (The index is
always in range because results never outnumber calls.) -/
def appendToolMessages (tool_calls : List PyToolCall) (tool_results : List ToolResult) :
    List ToolMessage :=
  tool_results.map (fun result =>
    { tool_call_id := ((tool_calls.get? (tool_results.indexOf result)).map
        (fun tc => tc.id)).getD "IndexError",
      content := result.result })

/-- Claim C3 failing input: one registered tool `f` that returns "42";
a model response issuing calls c1 and c2 to `f` with equal arguments
yields two tool messages BOTH carrying the id of c1 (first-equal-result
lookup), and a response issuing c1 to the unregistered name `g` and c2
to `f` yields a single message for the result of c2 carrying the id of
c1 -- so results are not reassembled by call-scoped identifier. -/
theorem tool_messages_misattributed :
    appendToolMessages
      [{ id := "c1", fname := "f", arguments := "{}" },
       { id := "c2", fname := "f", arguments := "{}" }]
      (execute_tool_calls [{ name := "f", run := fun _ => "42" }]
        [{ id := "c1", fname := "f", arguments := "{}" },
         { id := "c2", fname := "f", arguments := "{}" }]) =
      [{ tool_call_id := "c1", content := "42" },
       { tool_call_id := "c1", content := "42" }] ∧
    appendToolMessages
      [{ id := "c1", fname := "g", arguments := "{}" },
       { id := "c2", fname := "f", arguments := "{}" }]
      (execute_tool_calls [{ name := "f", run := fun _ => "42" }]
        [{ id := "c1", fname := "g", arguments := "{}" },
         { id := "c2", fname := "f", arguments := "{}" }]) =
      [{ tool_call_id := "c1", content := "42" }] :=
  ⟨rfl, rfl⟩

/-! ## Coordinator dispatch tools (coordinator.py) -/

/-- The `{content, agent}` dict a specialist run returns. -/
structure AgentResult where
  content : String
  agent : String
deriving DecidableEq, Repr

/-- What a dispatch tool hands back to the model: the result dict of
the specialist, the `{"error": msg}` dict, or the three-field error
dict of create_plan_impl. -/
inductive ToolReturn where
  | ok (r : AgentResult)
  | err (error : String)
  | planErr (error : String) (content : String) (agent : String)
deriving DecidableEq, Repr

/-- Query enhancement of get_activity_suggestions_impl. -/
def enhanceActivityQuery (query : String) (age : Option Int)
    (indoor_preference : Option Bool) : String :=
  let q := query ++ (match age with
    | some a => " for a " ++ toString a ++ "-year-old"
    | none => "")
  q ++ (match indoor_preference with
    | some b => if b then " indoors" else " outdoors"
    | none => "")

/-- coordinator.get_activity_suggestions_impl, parameterized by the
specialist invocation (which may raise). -/
def get_activity_suggestions_impl (run_activity_agent : String → Except String AgentResult)
    (query : String) (age : Option Int) (indoor_preference : Option Bool) : ToolReturn :=
  match run_activity_agent (enhanceActivityQuery query age indoor_preference) with
  | .ok r => .ok r
  | .error e => .err ("Error in Activity Agent: " ++ e)

/-- Query enhancement of get_recipe_suggestions_impl (`if cuisine:` is
Python truthiness: an empty string adds nothing). -/
def enhanceRecipeQuery (query : String) (cuisine meal_type : Option String) : String :=
  let q := query ++ (match cuisine with
    | some c => if c = "" then "" else " " ++ c ++ " cuisine"
    | none => "")
  q ++ (match meal_type with
    | some m => if m = "" then "" else " for " ++ m
    | none => "")

/-- coordinator.get_recipe_suggestions_impl. -/
def get_recipe_suggestions_impl (run_culinary_agent : String → Except String AgentResult)
    (query : String) (cuisine meal_type : Option String) : ToolReturn :=
  match run_culinary_agent (enhanceRecipeQuery query cuisine meal_type) with
  | .ok r => .ok r
  | .error e => .err ("Error in Culinary Agent: " ++ e)

/-- Query enhancement of get_restaurant_suggestions_impl. -/
def enhanceRestaurantQuery (query : String) (cuisine location : Option String) : String :=
  let q := query ++ (match cuisine with
    | some c => if c = "" then "" else " " ++ c ++ " cuisine"
    | none => "")
  q ++ (match location with
    | some l => if l = "" then "" else " in " ++ l
    | none => "")

/-- coordinator.get_restaurant_suggestions_impl. -/
def get_restaurant_suggestions_impl (run_foodie_agent : String → Except String AgentResult)
    (query : String) (cuisine location : Option String) : ToolReturn :=
  match run_foodie_agent (enhanceRestaurantQuery query cuisine location) with
  | .ok r => .ok r
  | .error e => .err ("Error in Foodie Agent: " ++ e)

/-- A specialist-result value after the create_plan parsing chain:
either a JSON value parsed by `json.loads`, or the
`{"content": raw}` wrap. -/
inductive PlanValue (J : Type) where
  | parsed (j : J)
  | content (raw : String)
deriving DecidableEq

/-- The `planner_input` dict create_plan_impl serializes for the
Planner. -/
structure PlannerPayload (J : Type) where
  user_question : String
  activity_results : Option (PlanValue J)
  culinary_results : Option (PlanValue J)
  foodie_results : Option (PlanValue J)
deriving DecidableEq

/-- What create_plan_impl sends to run_planner_agent: the serialized
payload, or the bare query when no specialist results were supplied. -/
inductive PlannerRequest (J : Type) where
  | payload (p : PlannerPayload J)
  | direct (q : String)
deriving DecidableEq

/-- Python truthiness of a parsed-or-wrapped specialist dict, needed by
the `any([...])` test of create_plan_impl: `None` is falsy, the
`{"content": raw}` wrap is a nonempty dict and always truthy, and the
truthiness of a `json.loads` value is an oracle (`jtruthy`, false for
an empty dict or list). -/
def pyTruthyPlan {J : Type} (jtruthy : J → Bool) : Option (PlanValue J) → Bool
  | none => false
  | some (.content _) => true
  | some (.parsed j) => jtruthy j

/-- coordinator.create_plan_impl, parameterized by the planner
invocation (which may raise).  The payload branch is chosen by
`any([activity_results, culinary_results, foodie_results])` (Python
truthiness); every non-None dict is then included in the payload.
Serialization of the payload (`json.dumps`) cannot fail on the values
the chain produces, so the inner serialization fallback is unreachable;
the outer `except` converts any planner exception into the apology
dict. -/
def create_plan_impl {J : Type} (jtruthy : J → Bool)
    (run_planner_agent : PlannerRequest J → Except String AgentResult)
    (query : String) (activity_results culinary_results foodie_results : Option (PlanValue J)) :
    ToolReturn :=
  let req := if pyTruthyPlan jtruthy activity_results ||
      pyTruthyPlan jtruthy culinary_results || pyTruthyPlan jtruthy foodie_results
    then PlannerRequest.payload
      { user_question := query,
        activity_results := activity_results,
        culinary_results := culinary_results,
        foodie_results := foodie_results }
    else PlannerRequest.direct query
  match run_planner_agent req with
  | .ok r => .ok r
  | .error e => .planErr ("Error in Planner Agent: " ++ e)
      "I apologize, but I encountered a technical issue while creating your plan."
      "Planner Agent"

/-- Outcome of a `json.loads` call that does NOT raise: either the JSON
literal `null` (Python `None`) or a non-null value. -/
inductive PyJson (J : Type) where
  | null
  | val (j : J)
deriving DecidableEq

/-- The Python variable a successful parse leaves behind: parsing the
JSON literal `null` assigns `None`, indistinguishable from the initial
`activity_dict = None` -- so it maps to `none`. -/
def PyJson.toDict {J : Type} : PyJson J → Option (PlanValue J)
  | .null => none
  | .val j => some (.parsed j)

/-- The per-input parsing chain of the create_plan tool body
(coordinator.py lines 234-297), parameterized by `json.loads` (`loads`:
`none` models a raised JSONDecodeError, `some .null` a successful parse
of the JSON literal null) and by the regex search for the known shape
(`extract`, returning the matched fragment).  A falsy (empty) string is
skipped and the dict stays None; a successful parse assigns the parsed
value (Python None when the input is the literal null); on a decode
error the regex fragment is parsed the same way, and only a second
decode error or a missing fragment produces the raw-content wrap. -/
def processSpecialistResult {J : Type} (loads : String → Option (PyJson J))
    (extract : String → Option String) (s : String) : Option (PlanValue J) :=
  if s = "" then none
  else
    match loads s with
    | some v => v.toDict
    | none =>
      match extract s with
      | some frag =>
        match loads frag with
        | some v => v.toDict
        | none => some (.content s)
      | none => some (.content s)

/-- coordinator.create_plan: parse the three optional specialist strings
through the fallback chain (each with its own shape regex), then call
create_plan_impl; the surrounding `try` of the source is dead because
create_plan_impl already catches every exception. -/
def create_plan {J : Type} (jtruthy : J → Bool) (loads : String → Option (PyJson J))
    (extractActivities extractRecipes extractRestaurants : String → Option String)
    (run_planner_agent : PlannerRequest J → Except String AgentResult)
    (query : String)
    (activity_results culinary_results foodie_results : Option String) : ToolReturn :=
  let activity_dict := match activity_results with
    | some s => processSpecialistResult loads extractActivities s
    | none => none
  let culinary_dict := match culinary_results with
    | some s => processSpecialistResult loads extractRecipes s
    | none => none
  let foodie_dict := match foodie_results with
    | some s => processSpecialistResult loads extractRestaurants s
    | none => none
  create_plan_impl jtruthy run_planner_agent query activity_dict culinary_dict foodie_dict

/-- Claim C6: for each of the four dispatch tools, an exception raised
by the specialist invocation is caught and converted into the returned
error dict of the tool (so the turn of the coordinator continues); the
conversion starts with the specialist label. -/
theorem dispatch_tools_convert_exceptions {J : Type} (jtruthy : J → Bool)
    (eA eC eF eP : String)
    (runA runC runF : String → Except String AgentResult)
    (runP : PlannerRequest J → Except String AgentResult)
    (hA : ∀ q, runA q = .error eA) (hC : ∀ q, runC q = .error eC)
    (hF : ∀ q, runF q = .error eF) (hP : ∀ r, runP r = .error eP)
    (query : String) (age : Option Int) (indoor : Option Bool)
    (cuisine meal_type location : Option String)
    (a c f : Option (PlanValue J)) :
    get_activity_suggestions_impl runA query age indoor =
      .err ("Error in Activity Agent: " ++ eA) ∧
    get_recipe_suggestions_impl runC query cuisine meal_type =
      .err ("Error in Culinary Agent: " ++ eC) ∧
    get_restaurant_suggestions_impl runF query cuisine location =
      .err ("Error in Foodie Agent: " ++ eF) ∧
    create_plan_impl jtruthy runP query a c f =
      .planErr ("Error in Planner Agent: " ++ eP)
        "I apologize, but I encountered a technical issue while creating your plan."
        "Planner Agent" := by
  refine ⟨?_, ?_, ?_, ?_⟩
  · unfold get_activity_suggestions_impl
    rw [hA]
  · unfold get_recipe_suggestions_impl
    rw [hC]
  · unfold get_restaurant_suggestions_impl
    rw [hF]
  · simp [create_plan_impl, hP]

/-- Witness for the C6 theorem with always-raising specialists. -/
theorem dispatch_tools_convert_exceptions_witness :
    get_activity_suggestions_impl (fun _ => .error "boom") "q" none none =
      .err ("Error in Activity Agent: " ++ "boom") ∧
    get_recipe_suggestions_impl (fun _ => .error "boom") "q" none none =
      .err ("Error in Culinary Agent: " ++ "boom") ∧
    get_restaurant_suggestions_impl (fun _ => .error "boom") "q" none none =
      .err ("Error in Foodie Agent: " ++ "boom") ∧
    create_plan_impl (J := Unit) (fun _ => true) (fun _ => .error "boom") "q" none none none =
      .planErr ("Error in Planner Agent: " ++ "boom")
        "I apologize, but I encountered a technical issue while creating your plan."
        "Planner Agent" :=
  dispatch_tools_convert_exceptions (J := Unit) (fun _ => true) "boom" "boom" "boom" "boom"
    (fun _ => .error "boom") (fun _ => .error "boom") (fun _ => .error "boom")
    (fun _ => .error "boom") (fun _ => rfl) (fun _ => rfl) (fun _ => rfl) (fun _ => rfl)
    "q" none none none none none none none none

/-- Claim C4 counterexample: two supplied inputs are silently dropped
rather than wrapped or included.  The empty string is falsy under
`if activity_results:`, so the chain never runs and the dict stays None;
the nonempty string "null" parses as strict JSON to Python None, so the
dict also stays None and both `any([...])` and the `is not None` checks
treat it as absent.  With both supplied, create_plan issues a DIRECT
query to the planner as if no specialist input had been given.  The
loads oracle is `json.loads` restricted to the inputs used: "null"
parses to the JSON null literal, everything else raises. -/
theorem create_plan_null_or_empty_dropped :
    processSpecialistResult (J := Unit)
      (fun s => if s = "null" then some .null else none) (fun _ => none) "" = none ∧
    processSpecialistResult (J := Unit)
      (fun s => if s = "null" then some .null else none) (fun _ => none) "" ≠
      some (.content "") ∧
    ("null" ≠ "" ∧
      (fun s => if s = "null" then some (PyJson.null (J := Unit)) else none) "null" =
        some .null) ∧
    processSpecialistResult (J := Unit)
      (fun s => if s = "null" then some .null else none) (fun _ => none) "null" = none ∧
    create_plan (fun _ => true)
      (fun s => if s = "null" then some (PyJson.null (J := Unit)) else none)
      (fun _ => none) (fun _ => none) (fun _ => none)
      (fun req => match req with
        | .direct _ => .ok { content := "direct", agent := "Planner Agent" }
        | .payload _ => .ok { content := "payload", agent := "Planner Agent" })
      "q" (some "null") (some "") none =
      .ok { content := "direct", agent := "Planner Agent" } :=
  ⟨rfl, by decide, ⟨by decide, rfl⟩, rfl, rfl⟩

/-- Claim C4 (amended): each supplied nonempty specialist string is
first parsed as strict JSON; on a decode error the regex extraction is
tried and its fragment strictly parsed; if that also fails the raw
string is wrapped as `{content: raw}`.  A supplied input is treated as
absent (dropped) precisely when it is empty, parses to JSON null, or,
after a decode error, its extracted fragment parses to JSON null; every
other supplied input is preserved as its parsed value or the content
wrap, and a malformed input alongside a well-formed one leaves the
planning call returning a result (the planner output, or the
caught-error dict), never an uncaught exception. -/
theorem create_plan_fallback_chain {J : Type} (jtruthy : J → Bool)
    (loads : String → Option (PyJson J))
    (extractActivities extractRecipes extractRestaurants : String → Option String)
    (run_planner_agent : PlannerRequest J → Except String AgentResult)
    (query a c : String) (j : J)
    (ha : a ≠ "") (hmal : loads a = none) (hnoext : extractActivities a = none)
    (hc : c ≠ "") (hok : loads c = some (.val j)) :
    processSpecialistResult loads extractActivities a = some (.content a) ∧
    processSpecialistResult loads extractRecipes c = some (.parsed j) ∧
    (∀ s frag (js : J), s ≠ "" → loads s = none → extractActivities s = some frag →
      loads frag = some (.val js) →
      processSpecialistResult loads extractActivities s = some (.parsed js)) ∧
    (∀ s, s ≠ "" →
      (processSpecialistResult loads extractActivities s = none ↔
        loads s = some .null ∨
        (loads s = none ∧ ∃ frag, extractActivities s = some frag ∧
          loads frag = some .null))) ∧
    create_plan jtruthy loads extractActivities extractRecipes extractRestaurants
        run_planner_agent query (some a) (some c) none =
      (match run_planner_agent (.payload
          { user_question := query,
            activity_results := some (.content a),
            culinary_results := some (.parsed j),
            foodie_results := none }) with
        | .ok r => .ok r
        | .error e => .planErr ("Error in Planner Agent: " ++ e)
            "I apologize, but I encountered a technical issue while creating your plan."
            "Planner Agent") := by
  have hpa : processSpecialistResult loads extractActivities a = some (.content a) := by
    simp [processSpecialistResult, ha, hmal, hnoext]
  have hpc : processSpecialistResult loads extractRecipes c = some (.parsed j) := by
    simp [processSpecialistResult, hc, hok, PyJson.toDict]
  refine ⟨hpa, hpc, ?_, ?_, ?_⟩
  · intro s frag js hs hl he hf
    simp [processSpecialistResult, hs, hl, he, hf, PyJson.toDict]
  · intro s hs
    unfold processSpecialistResult
    rw [if_neg hs]
    cases hls : loads s with
    | some v =>
      cases v with
      | null => simp [PyJson.toDict]
      | val jv => simp [PyJson.toDict, hls]
    | none =>
      cases hex : extractActivities s with
      | none => simp [hls, hex]
      | some frag =>
        cases hlf : loads frag with
        | none => simp [hls, hex, hlf]
        | some v =>
          cases v with
          | null => simp [PyJson.toDict, hls, hex, hlf]
          | val jv => simp [PyJson.toDict, hls, hex, hlf]
  · simp [create_plan, hpa, hpc, create_plan_impl, pyTruthyPlan]

/-- Witness for the amended C4 theorem: a malformed activity string
"oops" next to the well-formed culinary string "ok" (a toy loads oracle
parsing exactly "ok" to a non-null value), with a planner that
succeeds. -/
theorem create_plan_fallback_chain_witness :
    processSpecialistResult (fun s => if s = "ok" then some (.val ()) else none)
      (fun _ => none) "oops" = some (.content "oops") ∧
    processSpecialistResult (fun s => if s = "ok" then some (.val ()) else none)
      (fun _ => none) "ok" = some (.parsed ()) ∧
    (∀ s frag (js : Unit), s ≠ "" →
      (fun s => if s = "ok" then some (PyJson.val ()) else none) s = none →
      (fun (_ : String) => (none : Option String)) s = some frag →
      (fun s => if s = "ok" then some (PyJson.val ()) else none) frag = some (.val js) →
      processSpecialistResult (fun s => if s = "ok" then some (.val ()) else none)
        (fun _ => none) s = some (.parsed js)) ∧
    (∀ s, s ≠ "" →
      (processSpecialistResult (fun s => if s = "ok" then some (.val ()) else none)
          (fun _ => none) s = none ↔
        (fun s => if s = "ok" then some (PyJson.val ()) else none) s = some .null ∨
        ((fun s => if s = "ok" then some (PyJson.val ()) else none) s = none ∧
          ∃ frag, (fun (_ : String) => (none : Option String)) s = some frag ∧
            (fun s => if s = "ok" then some (PyJson.val ()) else none) frag =
              some .null))) ∧
    create_plan (fun _ => true) (fun s => if s = "ok" then some (.val ()) else none)
        (fun _ => none) (fun _ => none) (fun _ => none)
        (fun _ => .ok { content := "plan", agent := "Planner Agent" })
        "q" (some "oops") (some "ok") none =
      (match (fun (_ : PlannerRequest Unit) =>
          (Except.ok { content := "plan", agent := "Planner Agent" } :
            Except String AgentResult)) (.payload
          { user_question := "q",
            activity_results := some (.content "oops"),
            culinary_results := some (.parsed ()),
            foodie_results := none }) with
        | .ok r => .ok r
        | .error e => .planErr ("Error in Planner Agent: " ++ e)
            "I apologize, but I encountered a technical issue while creating your plan."
            "Planner Agent") :=
  create_plan_fallback_chain (fun _ => true)
    (fun s => if s = "ok" then some (.val ()) else none)
    (fun _ => none) (fun _ => none) (fun _ => none)
    (fun _ => .ok { content := "plan", agent := "Planner Agent" })
    "q" "oops" "ok" () (by decide) (by decide) rfl (by decide) (by decide)

/-! ## Session item counting (memory.py `AssistantSession.get_item_count`
and `DatabaseHelper.count_session_items`) -/

/-- Observable state of the SQLite database for one session: the table
names `sqlite_master` reports, and the outcome of each COUNT query the
helper may run for this session id (either may itself raise). -/
structure MockDb where
  tables : List String
  agentMessagesCount : Except String Nat
  itemsCount : Except String Nat

/-- DatabaseHelper.count_session_items: pick the query matching the
table shape that is present; an unrecognized schema leaves the initial
count of 0. -/
def count_session_items (db : MockDb) : Except String Nat :=
  if db.tables.contains "agent_messages" then db.agentMessagesCount
  else if db.tables.contains "items" then db.itemsCount
  else .ok 0

/-- AssistantSession.get_item_count, parameterized by the SDK call
(`get_items`, which may raise) and by the database connection
(`connect_to_db` plus `get_table_names`, which may raise).  A session
with a falsy db_path (None or the empty string) cannot use the SQLite
fallback and reports 0; any failure in the direct-SQL fallback also
reports 0. -/
def get_item_count (getItems : Except String (List String))
    (db_path : Option String) (connect : Except String MockDb) : Nat :=
  match getItems with
  | .ok items => items.length
  | .error _ =>
    match db_path with
    | none => 0
    | some p =>
      if p = "" then 0
      else
        match connect with
        | .error _ => 0
        | .ok db =>
          match count_session_items db with
          | .ok count => count
          | .error _ => 0

/-- Claim C10: get_item_count never raises (it is total on every oracle
behaviour) and returns: the SDK item count when get_items succeeds; 0
for an in-memory session when it fails; the direct-SQL count for a known
table shape (agent_messages first, then items); 0 when the schema is
unrecognized; and 0 when connecting or the count query itself fails. -/
theorem get_item_count_fallback (getItems : Except String (List String))
    (db_path : Option String) (connect : Except String MockDb)
    (e : String) :
    (∀ items, getItems = .ok items → get_item_count getItems db_path connect = items.length) ∧
    (getItems = .error e → db_path = none →
      get_item_count getItems db_path connect = 0) ∧
    (getItems = .error e → db_path = some "" →
      get_item_count getItems db_path connect = 0) ∧
    (∀ p db n, getItems = .error e → db_path = some p → p ≠ "" →
      connect = .ok db → db.tables.contains "agent_messages" = true →
      db.agentMessagesCount = .ok n →
      get_item_count getItems db_path connect = n) ∧
    (∀ p db n, getItems = .error e → db_path = some p → p ≠ "" →
      connect = .ok db → db.tables.contains "agent_messages" = false →
      db.tables.contains "items" = true → db.itemsCount = .ok n →
      get_item_count getItems db_path connect = n) ∧
    (∀ p db, getItems = .error e → db_path = some p → p ≠ "" →
      connect = .ok db → db.tables.contains "agent_messages" = false →
      db.tables.contains "items" = false →
      get_item_count getItems db_path connect = 0) ∧
    (∀ p ec, getItems = .error e → db_path = some p → p ≠ "" →
      connect = .error ec → get_item_count getItems db_path connect = 0) ∧
    (∀ p db ec, getItems = .error e → db_path = some p → p ≠ "" →
      connect = .ok db → count_session_items db = .error ec →
      get_item_count getItems db_path connect = 0) := by
  refine ⟨?_, ?_, ?_, ?_, ?_, ?_, ?_, ?_⟩
  · intro items h
    simp [get_item_count, h]
  · intro h hp
    simp [get_item_count, h, hp]
  · intro h hp
    simp [get_item_count, h, hp]
  · intro p db n h hp hpne hc hm hcount
    have hm' : "agent_messages" ∈ db.tables := by simpa using hm
    simp [get_item_count, h, hp, hpne, hc, count_session_items, hm', hcount]
  · intro p db n h hp hpne hc hm hi hcount
    have hm' : "agent_messages" ∉ db.tables := by simpa using hm
    have hi' : "items" ∈ db.tables := by simpa using hi
    simp [get_item_count, h, hp, hpne, hc, count_session_items, hm', hi', hcount]
  · intro p db h hp hpne hc hm hi
    have hm' : "agent_messages" ∉ db.tables := by simpa using hm
    have hi' : "items" ∉ db.tables := by simpa using hi
    simp [get_item_count, h, hp, hpne, hc, count_session_items, hm', hi']
  · intro p ec h hp hpne hc
    simp [get_item_count, h, hp, hpne, hc]
  · intro p db ec h hp hpne hc hcount
    simp [get_item_count, h, hp, hpne, hc, hcount]

/-- Witness for the C10 theorem: a failing SDK call over a persistent
session whose database has the `items` shape with 7 rows. -/
theorem get_item_count_fallback_witness :
    get_item_count (.error "sdk failure") (some "conversation_history.db")
      (.ok { tables := ["items"], agentMessagesCount := .error "no table",
             itemsCount := .ok 7 }) = 7 :=
  (get_item_count_fallback (.error "sdk failure") (some "conversation_history.db")
      (.ok { tables := ["items"], agentMessagesCount := .error "no table",
             itemsCount := .ok 7 }) "sdk failure").2.2.2.2.1
    "conversation_history.db"
    { tables := ["items"], agentMessagesCount := .error "no table", itemsCount := .ok 7 }
    7 rfl rfl (by decide) rfl (by decide) (by decide) rfl

end Assistant
